import Mathlib

/-!
Shallow embedding of the `compile-time` proc-macro crate (`src/src/lib.rs`).

The crate caches two process-wide singletons,
`COMPILE_TIME : Lazy<DateTime<Utc>>` and
`RUSTC_VERSION : Lazy<rustc_version::Result<Version>>`, and exposes
fourteen `#[proc_macro]` functions, each of which reads one of the two
singletons, projects some fields, and emits a literal or a small
expression.  Here the cached compile moment is a `DateTimeUtc` value, the
cached version-query outcome is an `Except String Version`, and each
proc-macro body becomes a pure Lean function of the singleton it reads
(plus its ignored `_item : TokenStream` argument).  The stateful
`once_cell::sync::Lazy` layer is modelled explicitly further below by
`CompState` / `invoke`.

The external collaborators (`chrono` date/time values and formatting,
`semver` identifier validation and rendering) are embedded by the
behaviour the spec assigns them in section 6: construction-with-validation
of dates and times, field accessors, epoch-seconds conversion,
`strftime`-style formatting, semantic-version identifier grammar and
canonical rendering.
-/

/-- Token stream handed to a proc macro at its invocation site; every
macro in the crate binds it as `_item` and ignores it.  Modelled
abstractly as a list of token strings. -/
def TokenStream : Type := List String

/-- Calendar date, mirroring `chrono::NaiveDate` through its observable
fields `year` / `month` (1-12) / `day` (1-31). -/
structure NaiveDate where
  year : Int
  month : Nat
  day : Nat
deriving DecidableEq, Repr

/-- Wall-clock time of day, mirroring `chrono::NaiveTime` through its
fields `hour` (0-23) / `minute` (0-59) / `second` (0-59). -/
structure NaiveTime where
  hour : Nat
  minute : Nat
  second : Nat
deriving DecidableEq, Repr

/-- Combined date and time in the fixed UTC reference frame, mirroring
`chrono::DateTime<Utc>` (equivalently `NaiveDateTime.and_utc`): the
`date_naive()` projection is the `date` field and the `time()` projection
is the `time` field.  `Utc::now()` carries sub-second nanoseconds, but no
operation of the crate observes them (field accessors and `timestamp()`
all truncate), so the model keeps whole seconds only. -/
structure DateTimeUtc where
  date : NaiveDate
  time : NaiveTime
deriving DecidableEq, Repr

/-- Leap-year test of the proleptic Gregorian calendar used by `chrono`. -/
def isLeapYear (y : Int) : Bool :=
  y % 4 == 0 && (y % 100 != 0 || y % 400 == 0)

/-- Length of a month, as used by `chrono`'s calendar-date validation. -/
def daysInMonth (y : Int) (m : Nat) : Nat :=
  if m == 2 then (if isLeapYear y then 29 else 28)
  else if m == 4 || m == 6 || m == 9 || m == 11 then 30
  else 31

/-- Embedding of `chrono::NaiveDate::from_ymd_opt`: validating
construction of a calendar date, `none` on an out-of-range component. -/
def NaiveDate.from_ymd_opt (y : Int) (m d : Nat) : Option NaiveDate :=
  if 1 ≤ m ∧ m ≤ 12 ∧ 1 ≤ d ∧ d ≤ daysInMonth y m then some ⟨y, m, d⟩ else none

/-- Embedding of `chrono::NaiveTime::from_hms_opt`: validating
construction of a time of day, `none` on an out-of-range component. -/
def NaiveTime.from_hms_opt (h m s : Nat) : Option NaiveTime :=
  if h < 24 ∧ m < 60 ∧ s < 60 then some ⟨h, m, s⟩ else none

/-- Invariant of a genuinely captured `chrono::DateTime<Utc>`: `chrono`
only ever holds field values inside the validation ranges of
`from_ymd_opt` / `from_hms_opt`, so any instant obtained from
`Utc::now()` satisfies this. -/
abbrev DateTimeUtc.Valid (t : DateTimeUtc) : Prop :=
  (1 ≤ t.date.month ∧ t.date.month ≤ 12 ∧ 1 ≤ t.date.day
      ∧ t.date.day ≤ daysInMonth t.date.year t.date.month)
    ∧ (t.time.hour < 24 ∧ t.time.minute < 60 ∧ t.time.second < 60)

/-- Number of days from 1970-01-01 to the civil date `y-m-d` (the
standard era-based conversion, extensionally the computation behind
`chrono`'s `num_days_from_ce`-based `timestamp`). -/
def daysFromCivil (y : Int) (m d : Nat) : Int :=
  let ya : Int := if m ≤ 2 then y - 1 else y
  let era : Int := Int.fdiv ya 400
  let yoe : Int := ya - era * 400
  let mp : Nat := (m + 9) % 12
  let doy : Int := ((153 * mp + 2) / 5 + d - 1 : Nat)
  let doe : Int := yoe * 365 + yoe / 4 - yoe / 100 + doy
  era * 146097 + doe - 719468

/-- Embedding of `chrono::DateTime::timestamp`: signed count of whole
seconds from 1970-01-01T00:00:00 UTC to the instant, truncating any
sub-second component toward the past. -/
def DateTimeUtc.timestamp (t : DateTimeUtc) : Int :=
  daysFromCivil t.date.year t.date.month t.date.day * 86400
    + (t.time.hour * 3600 + t.time.minute * 60 + t.time.second : Nat)

/-- One parsed item of a `chrono` `strftime`-style format string:
a zero-padded numeric field or a literal character. -/
inductive FmtItem where
  | year
  | month
  | day
  | hour
  | minute
  | second
  | lit (c : Char)
deriving DecidableEq, Repr

/-- String of `k` zero characters, for zero padding. -/
def zerosStr (k : Nat) : String :=
  String.mk (List.replicate k '0')

/-- Decimal rendering of `n` left-padded with zeros to width `w`
(`chrono`'s `Pad::Zero` numeric formatting). -/
def padNum (w n : Nat) : String :=
  zerosStr (w - (toString n).length) ++ toString n

/-- Two-digit zero-padded field (`%m`, `%d`, `%H`, `%M`, `%S`). -/
def pad2 (n : Nat) : String := padNum 2 n

/-- Four-digit zero-padded year (`%Y`), with a leading sign when
negative. -/
def padYear (y : Int) : String :=
  if y < 0 then "-" ++ padNum 4 (-y).toNat else padNum 4 y.toNat

/-- Render one format item against an instant. -/
def fmtOne (t : DateTimeUtc) : FmtItem → String
  | .year => padYear t.date.year
  | .month => pad2 t.date.month
  | .day => pad2 t.date.day
  | .hour => pad2 t.time.hour
  | .minute => pad2 t.time.minute
  | .second => pad2 t.time.second
  | .lit c => String.singleton c

/-- Embedding of `chrono`'s `format(..)`: concatenate the rendered
items. -/
def formatItems (t : DateTimeUtc) : List FmtItem → String
  | [] => ""
  | i :: rest => fmtOne t i ++ formatItems t rest

/-- Parsed form of the format string `"%Y-%m-%d"` used by `date_str`. -/
def fmtDate : List FmtItem :=
  [.year, .lit '-', .month, .lit '-', .day]

/-- Parsed form of the format string `"%H:%M:%S"` used by `time_str`. -/
def fmtTime : List FmtItem :=
  [.hour, .lit ':', .minute, .lit ':', .second]

/-- Parsed form of the format string `"%Y-%m-%dT%H:%M:%SZ"` used by
`datetime_str`. -/
def fmtDateTime : List FmtItem :=
  [.year, .lit '-', .month, .lit '-', .day, .lit 'T',
   .hour, .lit ':', .minute, .lit ':', .second, .lit 'Z']

/-- Structured semantic version, mirroring `semver::Version` (which is
also `rustc_version::Version`): `u64` components and the
`Prerelease` / `BuildMetadata` identifiers as strings, the empty string
standing for `Prerelease::EMPTY` / `BuildMetadata::EMPTY`. -/
structure Version where
  major : Nat
  minor : Nat
  patch : Nat
  pre : String
  build : String
deriving DecidableEq, Repr

/-- Character allowed inside a semantic-version identifier:
ASCII alphanumeric or hyphen. -/
def isIdentChar (c : Char) : Bool :=
  c.isAlphanum || c == '-'

/-- Split a character list at every dot, keeping empty segments. -/
def splitSegs : List Char → List (List Char)
  | [] => [[]]
  | c :: rest =>
    if c == '.' then [] :: splitSegs rest
    else
      match splitSegs rest with
      | [] => [[c]]
      | seg :: more => (c :: seg) :: more

/-- A purely numeric identifier segment must not have a leading zero
(`semver`'s pre-release rule); non-numeric segments are unconstrained
here. -/
def numericNoLeadZero (l : List Char) : Bool :=
  !(l.all Char.isDigit) || l == ['0'] || l.head? != some '0'

/-- Validity of one dot-separated pre-release identifier segment. -/
def validPreSeg (l : List Char) : Bool :=
  !l.isEmpty && l.all isIdentChar && numericNoLeadZero l

/-- Validity of one dot-separated build-metadata identifier segment
(leading zeros permitted). -/
def validBuildSeg (l : List Char) : Bool :=
  !l.isEmpty && l.all isIdentChar

/-- Embedding of `semver::Prerelease::new`: validate the identifier
against the pre-release grammar, yielding the identifier itself on
success and `none` (the `unreachable` branch of the emitted code) on
failure. -/
def Semver.Prerelease.new (s : String) : Option String :=
  if s.data.isEmpty then some ""
  else if (splitSegs s.data).all validPreSeg then some s
  else none

/-- Embedding of `semver::BuildMetadata::new`: validate the identifier
against the build-metadata grammar. -/
def Semver.BuildMetadata.new (s : String) : Option String :=
  if s.data.isEmpty then some ""
  else if (splitSegs s.data).all validBuildSeg then some s
  else none

/-- A version whose identifiers satisfy their own grammar, as any
version actually produced by `rustc_version::version` (which parses via
`semver`) does. -/
abbrev Version.WellFormed (v : Version) : Prop :=
  Semver.Prerelease.new v.pre = some v.pre
    ∧ Semver.BuildMetadata.new v.build = some v.build

/-- Embedding of `semver::Version`'s `Display` (used by
`rustc_version.to_string()`): `major.minor.patch`, then `-pre` when the
pre-release identifier is non-empty, then `+build` when the
build-metadata identifier is non-empty. -/
def Version.render (v : Version) : String :=
  toString v.major ++ "." ++ toString v.minor ++ "." ++ toString v.patch
    ++ (if v.pre = "" then "" else "-" ++ v.pre)
    ++ (if v.build = "" then "" else "+" ++ v.build)

/-- Diagnostic produced by `panic!("Failed to get version: {}", err)` in
every version macro: it halts the compilation carrying the underlying
query failure message. -/
def errMsg (e : String) : String :=
  "Failed to get version: " ++ e

/-- Embedding of `pub fn date` (src/src/lib.rs:44-59): project
year/month/day from the cached moment and emit
`NaiveDate::from_ymd_opt(..)` with an `unreachable` fallback, modelled
as the `Option` result of the validating constructor. -/
def CompileTime.date (_item : TokenStream) (t : DateTimeUtc) : Option NaiveDate :=
  NaiveDate.from_ymd_opt t.date.year t.date.month t.date.day

/-- Embedding of `pub fn date_str` (src/src/lib.rs:77-84): format the
cached moment's date with `"%Y-%m-%d"`. -/
def CompileTime.date_str (_item : TokenStream) (t : DateTimeUtc) : String :=
  formatItems t fmtDate

/-- Embedding of `pub fn time` (src/src/lib.rs:100-115): project
hour/minute/second and emit `NaiveTime::from_hms_opt(..)` with an
`unreachable` fallback. -/
def CompileTime.time (_item : TokenStream) (t : DateTimeUtc) : Option NaiveTime :=
  NaiveTime.from_hms_opt t.time.hour t.time.minute t.time.second

/-- Embedding of `pub fn time_str` (src/src/lib.rs:133-140): format the
cached moment's time with `"%H:%M:%S"`. -/
def CompileTime.time_str (_item : TokenStream) (t : DateTimeUtc) : String :=
  formatItems t fmtTime

/-- Embedding of `pub fn datetime` (src/src/lib.rs:169-201): emit
`NaiveDateTime::new(date, time).and_utc()` where `date` and `time` are
the validating constructors applied to the projected fields, each with
an `unreachable` fallback. -/
def CompileTime.datetime (_item : TokenStream) (t : DateTimeUtc) : Option DateTimeUtc :=
  match NaiveDate.from_ymd_opt t.date.year t.date.month t.date.day,
      NaiveTime.from_hms_opt t.time.hour t.time.minute t.time.second with
  | some d, some ti => some ⟨d, ti⟩
  | _, _ => none

/-- Embedding of `pub fn datetime_str` (src/src/lib.rs:214-221): format
the cached moment with `"%Y-%m-%dT%H:%M:%SZ"`. -/
def CompileTime.datetime_str (_item : TokenStream) (t : DateTimeUtc) : String :=
  formatItems t fmtDateTime

/-- Embedding of `pub fn unix` (src/src/lib.rs:232-242): emit
`datetime.timestamp()` as an unsuffixed `i64` literal. -/
def CompileTime.unix (_item : TokenStream) (t : DateTimeUtc) : Int :=
  t.timestamp

/-- Embedding of `pub fn rustc_version` (src/src/lib.rs:252-295): on a
cached query failure, halt with the diagnostic; on success emit a
`semver::Version` expression whose pre-release and build fields are
`EMPTY` when empty and otherwise go through `Prerelease::new` /
`BuildMetadata::new` with `unreachable` fallbacks (the inner
`Option`). -/
def CompileTime.rustc_version (_item : TokenStream)
    (r : Except String Version) : Except String (Option Version) :=
  match r with
  | .error e => .error (errMsg e)
  | .ok v =>
    let p : Option String :=
      if v.pre = "" then some "" else Semver.Prerelease.new v.pre
    let b : Option String :=
      if v.build = "" then some "" else Semver.BuildMetadata.new v.build
    .ok (match p, b with
      | some ps, some bs => some ⟨v.major, v.minor, v.patch, ps, bs⟩
      | _, _ => none)

/-- Embedding of `pub fn rustc_version_str` (src/src/lib.rs:305-314):
emit `rustc_version.to_string()` or halt with the diagnostic. -/
def CompileTime.rustc_version_str (_item : TokenStream)
    (r : Except String Version) : Except String String :=
  match r with
  | .ok v => .ok v.render
  | .error e => .error (errMsg e)

/-- Embedding of `pub fn rustc_version_major` (src/src/lib.rs:324-332):
emit the major component as an unsuffixed `u64` literal or halt. -/
def CompileTime.rustc_version_major (_item : TokenStream)
    (r : Except String Version) : Except String Nat :=
  match r with
  | .ok v => .ok v.major
  | .error e => .error (errMsg e)

/-- Embedding of `pub fn rustc_version_minor` (src/src/lib.rs:342-350). -/
def CompileTime.rustc_version_minor (_item : TokenStream)
    (r : Except String Version) : Except String Nat :=
  match r with
  | .ok v => .ok v.minor
  | .error e => .error (errMsg e)

/-- Embedding of `pub fn rustc_version_patch` (src/src/lib.rs:360-368). -/
def CompileTime.rustc_version_patch (_item : TokenStream)
    (r : Except String Version) : Except String Nat :=
  match r with
  | .ok v => .ok v.patch
  | .error e => .error (errMsg e)

/-- Embedding of `pub fn rustc_version_pre` (src/src/lib.rs:378-386):
emit `rustc_version.pre.as_str()` or halt. -/
def CompileTime.rustc_version_pre (_item : TokenStream)
    (r : Except String Version) : Except String String :=
  match r with
  | .ok v => .ok v.pre
  | .error e => .error (errMsg e)

/-- Embedding of `pub fn rustc_version_build` (src/src/lib.rs:396-404):
emit `rustc_version.build.as_str()` or halt. -/
def CompileTime.rustc_version_build (_item : TokenStream)
    (r : Except String Version) : Except String String :=
  match r with
  | .ok v => .ok v.build
  | .error e => .error (errMsg e)

/-- Name of one of the fourteen `#[proc_macro]` entry points of
src/src/lib.rs, in source order. -/
inductive Op where
  | date
  | date_str
  | time
  | time_str
  | datetime
  | datetime_str
  | unix
  | rustc_version
  | rustc_version_str
  | rustc_version_major
  | rustc_version_minor
  | rustc_version_patch
  | rustc_version_pre
  | rustc_version_build
deriving DecidableEq, Repr

/-- Every public operation of the crate, in source order. -/
def allOps : List Op :=
  [.date, .date_str, .time, .time_str, .datetime, .datetime_str, .unix,
   .rustc_version, .rustc_version_str, .rustc_version_major,
   .rustc_version_minor, .rustc_version_patch, .rustc_version_pre,
   .rustc_version_build]

/-- Decidable equality of `Except` outcomes, needed to compare emitted
results of the fallible version operations. -/
instance exceptDecEqInst {α β : Type} [DecidableEq α] [DecidableEq β] :
    DecidableEq (Except α β)
  | .ok a, .ok b =>
    if h : a = b then isTrue (by rw [h])
    else isFalse (fun hh => h (Except.ok.inj hh))
  | .ok _, .error _ => isFalse (fun hh => Except.noConfusion hh)
  | .error _, .ok _ => isFalse (fun hh => Except.noConfusion hh)
  | .error a, .error b =>
    if h : a = b then isTrue (by rw [h])
    else isFalse (fun hh => h (Except.error.inj hh))

/-- The one literal (or fatal diagnostic) a single macro expansion
produces, tagged by kind. -/
inductive Lit where
  | dateL : Option NaiveDate → Lit
  | timeL : Option NaiveTime → Lit
  | dtL : Option DateTimeUtc → Lit
  | strL : String → Lit
  | intL : Int → Lit
  | natE : Except String Nat → Lit
  | strE : Except String String → Lit
  | verE : Except String (Option Version) → Lit
deriving DecidableEq, Repr

/-- State of one compilation process: the ambient clock (the sequence of
instants successive `Utc::now()` calls would observe), how many clock
reads have happened, the two `once_cell::sync::Lazy` cells
(`COMPILE_TIME`, `RUSTC_VERSION`), and the fixed outcome the one-shot
`rustc_version::version()` query would produce. -/
structure CompState where
  clock : Nat → DateTimeUtc
  reads : Nat
  ctCache : Option DateTimeUtc
  queryResult : Except String Version
  verCache : Option (Except String Version)

/-- Dereference of the `COMPILE_TIME` Lazy cell: on first touch read the
clock and store the instant; afterwards return the stored instant. -/
def getCompileTime (s : CompState) : DateTimeUtc × CompState :=
  match s.ctCache with
  | some t => (t, s)
  | none =>
    (s.clock s.reads,
     { s with reads := s.reads + 1, ctCache := some (s.clock s.reads) })

/-- Dereference of the `RUSTC_VERSION` Lazy cell: on first touch run the
version query and store its outcome; afterwards replay the stored
outcome. -/
def getRustcVersion (s : CompState) : Except String Version × CompState :=
  match s.verCache with
  | some r => (r, s)
  | none => (s.queryResult, { s with verCache := some s.queryResult })

/-- Whether an operation reads `COMPILE_TIME` (the seven date/time
macros); the other seven read `RUSTC_VERSION`. -/
def usesCT : Op → Bool
  | .date | .date_str | .time | .time_str
  | .datetime | .datetime_str | .unix => true
  | _ => false

/-- Pure body of a date/time macro applied to the cached instant. -/
def projCT (op : Op) (item : TokenStream) (t : DateTimeUtc) : Lit :=
  match op with
  | .date => .dateL (CompileTime.date item t)
  | .date_str => .strL (CompileTime.date_str item t)
  | .time => .timeL (CompileTime.time item t)
  | .time_str => .strL (CompileTime.time_str item t)
  | .datetime => .dtL (CompileTime.datetime item t)
  | .datetime_str => .strL (CompileTime.datetime_str item t)
  | .unix => .intL (CompileTime.unix item t)
  | _ => .strL ""

/-- Pure body of a version macro applied to the cached query outcome. -/
def projVer (op : Op) (item : TokenStream) (r : Except String Version) : Lit :=
  match op with
  | .rustc_version => .verE (CompileTime.rustc_version item r)
  | .rustc_version_str => .strE (CompileTime.rustc_version_str item r)
  | .rustc_version_major => .natE (CompileTime.rustc_version_major item r)
  | .rustc_version_minor => .natE (CompileTime.rustc_version_minor item r)
  | .rustc_version_patch => .natE (CompileTime.rustc_version_patch item r)
  | .rustc_version_pre => .strE (CompileTime.rustc_version_pre item r)
  | .rustc_version_build => .strE (CompileTime.rustc_version_build item r)
  | _ => .strL ""

/-- One macro invocation inside a compilation: every macro body first
dereferences its Lazy singleton and then purely projects from the value
it got, which is exactly this read-then-project shape. -/
def invoke (op : Op) (item : TokenStream) (s : CompState) : Lit × CompState :=
  if usesCT op then
    (projCT op item (getCompileTime s).1, (getCompileTime s).2)
  else
    (projVer op item (getRustcVersion s).1, (getRustcVersion s).2)

/-- Run a sequence of macro invocations, threading the compilation
state. -/
def runList : List (Op × TokenStream) → CompState → CompState
  | [], s => s
  | p :: rest, s => runList rest (invoke p.1 p.2 s).2

/-- Empty invocation-site token stream. -/
def ts0 : TokenStream := ([] : List String)

/-- The instant 2024-03-15T09:07:22 UTC of the spec's scenario. -/
def ct0 : DateTimeUtc := ⟨⟨2024, 3, 15⟩, ⟨9, 7, 22⟩⟩

/-- Toolchain version 1.75.0 of the spec's scenario. -/
def ver175 : Version := ⟨1, 75, 0, "", ""⟩

/-- Toolchain version 1.70.0-beta.2+sha.abcdef of the spec's second
scenario. -/
def ver170 : Version := ⟨1, 70, 0, "beta.2", "sha.abcdef"⟩

/-- Helper: on a well-formed cached version the `rustc_version` macro
takes no `unreachable` branch and emits exactly the cached version. -/
theorem rv_ok_of_wf (i : TokenStream) (v : Version) (h : v.WellFormed) :
    CompileTime.rustc_version i (.ok v) = .ok (some v) := by
  obtain ⟨ma, mi, pa, pr, bu⟩ := v
  obtain ⟨hp, hb⟩ := h
  by_cases hpe : pr = "" <;> by_cases hbe : bu = "" <;>
    simp_all [CompileTime.rustc_version]

/-- Helper: a `COMPILE_TIME` dereference after the cell is filled
returns the stored instant and leaves the state unchanged. -/
theorem getCompileTime_of_some {s : CompState} {t : DateTimeUtc}
    (h : s.ctCache = some t) : getCompileTime s = (t, s) := by
  simp [getCompileTime, h]

/-- Helper: after any `COMPILE_TIME` dereference the cell holds exactly
the instant that was returned. -/
theorem getCompileTime_snd_ctCache (s : CompState) :
    (getCompileTime s).2.ctCache = some (getCompileTime s).1 := by
  unfold getCompileTime
  cases h : s.ctCache <;> simp [h]

/-- Helper: a `COMPILE_TIME` dereference never touches the
`RUSTC_VERSION` cell. -/
theorem getCompileTime_snd_verCache (s : CompState) :
    (getCompileTime s).2.verCache = s.verCache := by
  unfold getCompileTime
  cases h : s.ctCache <;> simp [h]

/-- Helper: a `RUSTC_VERSION` dereference after the cell is filled
replays the stored outcome and leaves the state unchanged. -/
theorem getRustcVersion_of_some {s : CompState} {r : Except String Version}
    (h : s.verCache = some r) : getRustcVersion s = (r, s) := by
  simp [getRustcVersion, h]

/-- Helper: after any `RUSTC_VERSION` dereference the cell holds exactly
the outcome that was returned. -/
theorem getRustcVersion_snd_verCache (s : CompState) :
    (getRustcVersion s).2.verCache = some (getRustcVersion s).1 := by
  unfold getRustcVersion
  cases h : s.verCache <;> simp [h]

/-- Helper: a `RUSTC_VERSION` dereference never touches the
`COMPILE_TIME` cell. -/
theorem getRustcVersion_snd_ctCache (s : CompState) :
    (getRustcVersion s).2.ctCache = s.ctCache := by
  unfold getRustcVersion
  cases h : s.verCache <;> simp [h]

/-- Helper: no macro invocation overwrites a filled `COMPILE_TIME`
cell. -/
theorem invoke_ctCache_pres {s : CompState} {t : DateTimeUtc} (op : Op)
    (i : TokenStream) (h : s.ctCache = some t) :
    ((invoke op i s).2).ctCache = some t := by
  by_cases hc : usesCT op = true <;>
    simp [invoke, hc, getCompileTime_of_some h, getRustcVersion_snd_ctCache, h]

/-- Helper: no macro invocation overwrites a filled `RUSTC_VERSION`
cell. -/
theorem invoke_verCache_pres {s : CompState} {r : Except String Version} (op : Op)
    (i : TokenStream) (h : s.verCache = some r) :
    ((invoke op i s).2).verCache = some r := by
  by_cases hc : usesCT op = true <;>
    simp [invoke, hc, getRustcVersion_of_some h, getCompileTime_snd_verCache, h]

/-- Helper: a whole sequence of macro invocations preserves a filled
`COMPILE_TIME` cell. -/
theorem runList_ctCache_pres {t : DateTimeUtc} (l : List (Op × TokenStream)) :
    ∀ {s : CompState}, s.ctCache = some t → (runList l s).ctCache = some t := by
  induction l with
  | nil => intro s h; exact h
  | cons p rest ih =>
    intro s h
    simp only [runList]
    exact ih (invoke_ctCache_pres p.1 p.2 h)

/-- Helper: a whole sequence of macro invocations preserves a filled
`RUSTC_VERSION` cell. -/
theorem runList_verCache_pres {r : Except String Version} (l : List (Op × TokenStream)) :
    ∀ {s : CompState}, s.verCache = some r → (runList l s).verCache = some r := by
  induction l with
  | nil => intro s h; exact h
  | cons p rest ih =>
    intro s h
    simp only [runList]
    exact ih (invoke_verCache_pres p.1 p.2 h)

/-- Claim C1: within one compilation process, any two invocations of the
same operation emit identical literal values — arbitrarily many other
macro invocations may happen in between, and the two invocation sites
may carry different token streams — because every operation projects
from the once-computed cached singleton (`COMPILE_TIME` or
`RUSTC_VERSION`). -/
theorem claim1_idempotent_invocations (s : CompState) (op : Op)
    (i1 i2 : TokenStream) (mid : List (Op × TokenStream)) :
    (invoke op i2 (runList mid (invoke op i1 s).2)).1 = (invoke op i1 s).1 := by
  by_cases hc : usesCT op = true
  · have h1 : (invoke op i1 s).2 = (getCompileTime s).2 := by simp [invoke, hc]
    have hv1 : (invoke op i1 s).1 = projCT op i1 (getCompileTime s).1 := by
      simp [invoke, hc]
    have hcache : ((invoke op i1 s).2).ctCache = some ((getCompileTime s).1) := by
      rw [h1]; exact getCompileTime_snd_ctCache s
    have h2 : (runList mid (invoke op i1 s).2).ctCache = some ((getCompileTime s).1) :=
      runList_ctCache_pres mid hcache
    have h3 : (runList mid ((getCompileTime s).2)).ctCache = some ((getCompileTime s).1) := by
      rw [← h1]; exact h2
    have hv2 : (invoke op i2 (runList mid (invoke op i1 s).2)).1
        = projCT op i2 ((getCompileTime s).1) := by
      simp [invoke, hc, h1, getCompileTime_of_some h3]
    rw [hv1, hv2]
    cases op <;> rfl
  · have h1 : (invoke op i1 s).2 = (getRustcVersion s).2 := by simp [invoke, hc]
    have hv1 : (invoke op i1 s).1 = projVer op i1 (getRustcVersion s).1 := by
      simp [invoke, hc]
    have hcache : ((invoke op i1 s).2).verCache = some ((getRustcVersion s).1) := by
      rw [h1]; exact getRustcVersion_snd_verCache s
    have h2 : (runList mid (invoke op i1 s).2).verCache = some ((getRustcVersion s).1) :=
      runList_verCache_pres mid hcache
    have h3 : (runList mid ((getRustcVersion s).2)).verCache = some ((getRustcVersion s).1) := by
      rw [← h1]; exact h2
    have hv2 : (invoke op i2 (runList mid (invoke op i1 s).2)).1
        = projVer op i2 ((getRustcVersion s).1) := by
      simp [invoke, hc, h1, getRustcVersion_of_some h3]
    rw [hv1, hv2]
    cases op <;> rfl

/-- Claim C2: when the one-time toolchain-version query fails with
message `e`, every one of the seven version operations halts compilation
with the same diagnostic, which carries `e` verbatim (it is the string
"Failed to get version: " followed by `e`), regardless of which one is
invoked first; the date/time operations do not depend on the version
cache and still succeed. -/
theorem claim2_error_propagation (e : String) (i : TokenStream)
    (t : DateTimeUtc) (h : t.Valid) :
    CompileTime.rustc_version i (.error e) = .error (errMsg e)
    ∧ CompileTime.rustc_version_str i (.error e) = .error (errMsg e)
    ∧ CompileTime.rustc_version_major i (.error e) = .error (errMsg e)
    ∧ CompileTime.rustc_version_minor i (.error e) = .error (errMsg e)
    ∧ CompileTime.rustc_version_patch i (.error e) = .error (errMsg e)
    ∧ CompileTime.rustc_version_pre i (.error e) = .error (errMsg e)
    ∧ CompileTime.rustc_version_build i (.error e) = .error (errMsg e)
    ∧ errMsg e = "Failed to get version: " ++ e
    ∧ (CompileTime.date i t).isSome = true
    ∧ (CompileTime.time i t).isSome = true
    ∧ (CompileTime.datetime i t).isSome = true := by
  refine ⟨rfl, rfl, rfl, rfl, rfl, rfl, rfl, rfl, ?_, ?_, ?_⟩
  · simp [CompileTime.date, NaiveDate.from_ymd_opt, if_pos h.1]
  · simp [CompileTime.time, NaiveTime.from_hms_opt, if_pos h.2]
  · simp only [CompileTime.datetime, NaiveDate.from_ymd_opt, NaiveTime.from_hms_opt,
      if_pos h.1, if_pos h.2]
    rfl

/-- Witness for claim C2 at the spec's scenario: failure message
"not found" and the valid instant 2024-03-15T09:07:22Z. -/
theorem claim2_error_propagation_witness :
    CompileTime.rustc_version ts0 (.error "not found") = .error (errMsg "not found")
    ∧ CompileTime.rustc_version_str ts0 (.error "not found") = .error (errMsg "not found")
    ∧ CompileTime.rustc_version_major ts0 (.error "not found") = .error (errMsg "not found")
    ∧ CompileTime.rustc_version_minor ts0 (.error "not found") = .error (errMsg "not found")
    ∧ CompileTime.rustc_version_patch ts0 (.error "not found") = .error (errMsg "not found")
    ∧ CompileTime.rustc_version_pre ts0 (.error "not found") = .error (errMsg "not found")
    ∧ CompileTime.rustc_version_build ts0 (.error "not found") = .error (errMsg "not found")
    ∧ errMsg "not found" = "Failed to get version: " ++ "not found"
    ∧ (CompileTime.date ts0 ct0).isSome = true
    ∧ (CompileTime.time ts0 ct0).isSome = true
    ∧ (CompileTime.datetime ts0 ct0).isSome = true :=
  claim2_error_propagation "not found" ts0 ct0 (by decide)

/-- Claim C3: the integer emitted by `unix` is the signed whole-second
count from 1970-01-01T00:00:00 UTC (the epoch itself maps to 0), and
converting the structured value emitted by `datetime` to epoch seconds
yields exactly the `unix` output of the same compilation. -/
theorem claim3_epoch_consistency (i : TokenStream) (t : DateTimeUtc)
    (h : t.Valid) :
    (CompileTime.datetime i t).map DateTimeUtc.timestamp
        = some (CompileTime.unix i t)
    ∧ DateTimeUtc.timestamp ⟨⟨1970, 1, 1⟩, ⟨0, 0, 0⟩⟩ = 0 := by
  constructor
  · simp only [CompileTime.datetime, NaiveDate.from_ymd_opt, NaiveTime.from_hms_opt,
      if_pos h.1, if_pos h.2]
    rfl
  · decide

/-- Witness for claim C3 at the instant 2024-03-15T09:07:22Z. -/
theorem claim3_epoch_consistency_witness :
    (CompileTime.datetime ts0 ct0).map DateTimeUtc.timestamp
        = some (CompileTime.unix ts0 ct0)
    ∧ DateTimeUtc.timestamp ⟨⟨1970, 1, 1⟩, ⟨0, 0, 0⟩⟩ = 0 :=
  claim3_epoch_consistency ts0 ct0 (by decide)

/-- Claim C4: within one compilation, `date_str` equals the zero-padded
`YYYY-MM-DD` concatenation of the fields of the value emitted by `date`;
`time_str` equals the zero-padded `HH:MM:SS` concatenation of the fields
of the value emitted by `time`; and `datetime_str` is the `date_str`
output, then `T`, then the `time_str` output, then `Z`. -/
theorem claim4_string_consistency (i : TokenStream) (t : DateTimeUtc)
    (h : t.Valid) :
    (CompileTime.date i t).map
        (fun d => padYear d.year ++ "-" ++ pad2 d.month ++ "-" ++ pad2 d.day)
      = some (CompileTime.date_str i t)
    ∧ (CompileTime.time i t).map
        (fun x => pad2 x.hour ++ ":" ++ pad2 x.minute ++ ":" ++ pad2 x.second)
      = some (CompileTime.time_str i t)
    ∧ CompileTime.datetime_str i t
      = CompileTime.date_str i t ++ "T" ++ CompileTime.time_str i t ++ "Z" := by
  refine ⟨?_, ?_, ?_⟩
  · simp only [CompileTime.date, NaiveDate.from_ymd_opt, if_pos h.1, Option.map_some']
    apply congrArg some
    apply String.ext
    simp [CompileTime.date_str, fmtDate, formatItems, fmtOne, String.data_append]
  · simp only [CompileTime.time, NaiveTime.from_hms_opt, if_pos h.2, Option.map_some']
    apply congrArg some
    apply String.ext
    simp [CompileTime.time_str, fmtTime, formatItems, fmtOne, String.data_append]
  · apply String.ext
    simp [CompileTime.datetime_str, CompileTime.date_str, CompileTime.time_str,
      fmtDateTime, fmtDate, fmtTime, formatItems, fmtOne, String.data_append]

/-- Witness for claim C4 at the instant 2024-03-15T09:07:22Z. -/
theorem claim4_string_consistency_witness :
    (CompileTime.date ts0 ct0).map
        (fun d => padYear d.year ++ "-" ++ pad2 d.month ++ "-" ++ pad2 d.day)
      = some (CompileTime.date_str ts0 ct0)
    ∧ (CompileTime.time ts0 ct0).map
        (fun x => pad2 x.hour ++ ":" ++ pad2 x.minute ++ ":" ++ pad2 x.second)
      = some (CompileTime.time_str ts0 ct0)
    ∧ CompileTime.datetime_str ts0 ct0
      = CompileTime.date_str ts0 ct0 ++ "T" ++ CompileTime.time_str ts0 ct0 ++ "Z" :=
  claim4_string_consistency ts0 ct0 (by decide)

/-- Claim C5: within one compilation with a well-formed queried version,
the integers emitted by `rustc_version_major` / `minor` / `patch` and
the strings emitted by `rustc_version_pre` / `build` equal the
corresponding fields of the structured version emitted by
`rustc_version` (the identifier strings being empty exactly when the
respective identifier is absent). -/
theorem claim5_version_field_consistency (i : TokenStream) (v : Version)
    (h : v.WellFormed) :
    ∃ w : Version,
      CompileTime.rustc_version i (.ok v) = .ok (some w)
      ∧ CompileTime.rustc_version_major i (.ok v) = .ok w.major
      ∧ CompileTime.rustc_version_minor i (.ok v) = .ok w.minor
      ∧ CompileTime.rustc_version_patch i (.ok v) = .ok w.patch
      ∧ CompileTime.rustc_version_pre i (.ok v) = .ok w.pre
      ∧ CompileTime.rustc_version_build i (.ok v) = .ok w.build :=
  ⟨v, rv_ok_of_wf i v h, rfl, rfl, rfl, rfl, rfl⟩

/-- Witness for claim C5 at version 1.70.0-beta.2+sha.abcdef. -/
theorem claim5_version_field_consistency_witness :
    ∃ w : Version,
      CompileTime.rustc_version ts0 (.ok ver170) = .ok (some w)
      ∧ CompileTime.rustc_version_major ts0 (.ok ver170) = .ok w.major
      ∧ CompileTime.rustc_version_minor ts0 (.ok ver170) = .ok w.minor
      ∧ CompileTime.rustc_version_patch ts0 (.ok ver170) = .ok w.patch
      ∧ CompileTime.rustc_version_pre ts0 (.ok ver170) = .ok w.pre
      ∧ CompileTime.rustc_version_build ts0 (.ok ver170) = .ok w.build :=
  claim5_version_field_consistency ts0 ver170 (by decide)

/-- Claim C6: `rustc_version_str` emits the canonical semantic-version
rendering `major.minor.patch`, with `-pre` appended when the pre-release
identifier is non-empty and `+build` appended when the build-metadata
identifier is non-empty; in particular version 1.70.0 with pre
"beta.2" and build "sha.abcdef" renders as "1.70.0-beta.2+sha.abcdef",
with `rustc_version_pre` emitting "beta.2" and `rustc_version_build`
emitting "sha.abcdef". -/
theorem claim6_version_string_rendering :
    (∀ (i : TokenStream) (v : Version),
      CompileTime.rustc_version_str i (.ok v)
        = .ok (toString v.major ++ "." ++ toString v.minor ++ "." ++ toString v.patch
            ++ (if v.pre = "" then "" else "-" ++ v.pre)
            ++ (if v.build = "" then "" else "+" ++ v.build)))
    ∧ CompileTime.rustc_version_str ts0 (.ok ver170) = .ok "1.70.0-beta.2+sha.abcdef"
    ∧ CompileTime.rustc_version_pre ts0 (.ok ver170) = .ok "beta.2"
    ∧ CompileTime.rustc_version_build ts0 (.ok ver170) = .ok "sha.abcdef" :=
  ⟨fun _ _ => rfl, by decide, rfl, rfl⟩

/-- Counterexample to claim C7: at the claimed instant
2024-03-15T09:07:22 UTC the `unix` operation emits 1710493642, not the
claimed 1710494842 (which is the epoch count of 09:27:22), even though
the string operations do emit the claimed values at that instant. -/
theorem claim7_scenario_counterexample :
    CompileTime.date_str ts0 ct0 = "2024-03-15"
    ∧ CompileTime.time_str ts0 ct0 = "09:07:22"
    ∧ CompileTime.unix ts0 ct0 ≠ 1710494842 := by decide

/-- Claim C7 as amended: at the cached instant 2024-03-15T09:07:22 UTC
with toolchain version 1.75.0 (no pre-release, no build), the
operations emit date "2024-03-15", time "09:07:22", datetime
"2024-03-15T09:07:22Z", epoch integer 1710493642, version string
"1.75.0", major 1, minor 75, patch 0, pre "" and build "". -/
theorem claim7_scenario_amended :
    CompileTime.date_str ts0 ct0 = "2024-03-15"
    ∧ CompileTime.time_str ts0 ct0 = "09:07:22"
    ∧ CompileTime.datetime_str ts0 ct0 = "2024-03-15T09:07:22Z"
    ∧ CompileTime.unix ts0 ct0 = 1710493642
    ∧ CompileTime.rustc_version_str ts0 (.ok ver175) = .ok "1.75.0"
    ∧ CompileTime.rustc_version_major ts0 (.ok ver175) = .ok 1
    ∧ CompileTime.rustc_version_minor ts0 (.ok ver175) = .ok 75
    ∧ CompileTime.rustc_version_patch ts0 (.ok ver175) = .ok 0
    ∧ CompileTime.rustc_version_pre ts0 (.ok ver175) = .ok ""
    ∧ CompileTime.rustc_version_build ts0 (.ok ver175) = .ok "" := by decide

/-- Claim C8: the `unreachable` fallback branches in the code emitted by
`date`, `time`, `datetime` and `rustc_version` are never taken: the
field triples of a genuinely valid captured instant always pass the
calendar-date and time-of-day validation, and the non-empty identifiers
of a well-formed toolchain version always pass the semantic-version
identifier validation. -/
theorem claim8_unreachable_safety (i : TokenStream) (t : DateTimeUtc)
    (v : Version) (ht : t.Valid) (hv : v.WellFormed) :
    (CompileTime.date i t).isSome = true
    ∧ (CompileTime.time i t).isSome = true
    ∧ (CompileTime.datetime i t).isSome = true
    ∧ CompileTime.rustc_version i (.ok v) = .ok (some v) := by
  refine ⟨?_, ?_, ?_, rv_ok_of_wf i v hv⟩
  · simp [CompileTime.date, NaiveDate.from_ymd_opt, if_pos ht.1]
  · simp [CompileTime.time, NaiveTime.from_hms_opt, if_pos ht.2]
  · simp only [CompileTime.datetime, NaiveDate.from_ymd_opt, NaiveTime.from_hms_opt,
      if_pos ht.1, if_pos ht.2]
    rfl

/-- Witness for claim C8 at the instant 2024-03-15T09:07:22Z and version
1.70.0-beta.2+sha.abcdef. -/
theorem claim8_unreachable_safety_witness :
    (CompileTime.date ts0 ct0).isSome = true
    ∧ (CompileTime.time ts0 ct0).isSome = true
    ∧ (CompileTime.datetime ts0 ct0).isSome = true
    ∧ CompileTime.rustc_version ts0 (.ok ver170) = .ok (some ver170) :=
  claim8_unreachable_safety ts0 ct0 ver170 (by decide) (by decide)

/-- Counterexample to claim C9: the public invocation surface does not
consist of twelve operations — the crate exports fourteen `#[proc_macro]`
entry points. -/
theorem claim9_operation_count_counterexample : allOps.length ≠ 12 := by decide

/-- Claim C9 as amended: the public invocation surface consists of
exactly fourteen named, pairwise-distinct, zero-argument compile-time
expansion operations (each of which `invoke` maps to one literal). -/
theorem claim9_operation_count_amended :
    allOps.length = 14 ∧ allOps.Nodup ∧ ∀ op : Op, op ∈ allOps := by
  refine ⟨by decide, by decide, ?_⟩
  intro op
  cases op <;> decide

/-- Claim C10: every operation ignores its invocation-site token stream
entirely — for any two input token streams the emitted expansion is
identical, depending only on the cached singleton values. -/
theorem claim10_input_independence (i1 i2 : TokenStream) (t : DateTimeUtc)
    (r : Except String Version) :
    CompileTime.date i1 t = CompileTime.date i2 t
    ∧ CompileTime.date_str i1 t = CompileTime.date_str i2 t
    ∧ CompileTime.time i1 t = CompileTime.time i2 t
    ∧ CompileTime.time_str i1 t = CompileTime.time_str i2 t
    ∧ CompileTime.datetime i1 t = CompileTime.datetime i2 t
    ∧ CompileTime.datetime_str i1 t = CompileTime.datetime_str i2 t
    ∧ CompileTime.unix i1 t = CompileTime.unix i2 t
    ∧ CompileTime.rustc_version i1 r = CompileTime.rustc_version i2 r
    ∧ CompileTime.rustc_version_str i1 r = CompileTime.rustc_version_str i2 r
    ∧ CompileTime.rustc_version_major i1 r = CompileTime.rustc_version_major i2 r
    ∧ CompileTime.rustc_version_minor i1 r = CompileTime.rustc_version_minor i2 r
    ∧ CompileTime.rustc_version_patch i1 r = CompileTime.rustc_version_patch i2 r
    ∧ CompileTime.rustc_version_pre i1 r = CompileTime.rustc_version_pre i2 r
    ∧ CompileTime.rustc_version_build i1 r = CompileTime.rustc_version_build i2 r :=
  ⟨rfl, rfl, rfl, rfl, rfl, rfl, rfl, rfl, rfl, rfl, rfl, rfl, rfl, rfl⟩
